import Mathlib

/-!
Verification of `src/dags/raw_from_api_to_s3.py` (pet_project_earthquake).

The file shallowly embeds the only original logic of the repository:

* `get_dates` (lines 37-42): formats the scheduler interval boundaries as
  `YYYY-MM-DD` strings;
* `get_and_transfer_api_data_to_s3` (lines 45-94): builds the source query
  URL and the destination object path, opens a DuckDB connection, runs one
  extraction statement, closes the connection, and logs start/success;
* the module top level (lines 17-19): two `Variable.get` secret reads
  evaluated when the DAG file is imported.

Timestamps are modelled as calendar/clock fields (the representation that
pendulum's `format("YYYY-MM-DD")` renders); timezone bookkeeping belongs to
the external scheduler and is outside this embedding.
-/

namespace Quake

/-- A timestamp as pendulum presents it to `format`: the calendar and clock
fields of the instant in its zone.  Comparison of two timestamps carried in
the same zone is lexicographic on these fields. -/
structure DateTime where
  year : Nat
  month : Nat
  day : Nat
  hour : Nat
  minute : Nat
  second : Nat
deriving DecidableEq, Repr

/-- A calendar date, the part of a `DateTime` that `YYYY-MM-DD` renders. -/
structure Date where
  year : Nat
  month : Nat
  day : Nat
deriving DecidableEq, Repr

/-- The calendar-date part of a timestamp. -/
def DateTime.date (t : DateTime) : Date :=
  ⟨t.year, t.month, t.day⟩

/-- Lexicographic strict order on timestamps (how pendulum compares two
datetimes carried in the same zone). -/
def DateTime.lt (a b : DateTime) : Prop :=
  a.year < b.year ∨ (a.year = b.year ∧
    (a.month < b.month ∨ (a.month = b.month ∧
      (a.day < b.day ∨ (a.day = b.day ∧
        (a.hour < b.hour ∨ (a.hour = b.hour ∧
          (a.minute < b.minute ∨ (a.minute = b.minute ∧
            a.second < b.second)))))))))

instance (a b : DateTime) : Decidable (DateTime.lt a b) := by
  unfold DateTime.lt; infer_instance

/-- Non-strict lexicographic order on timestamps. -/
def DateTime.le (a b : DateTime) : Prop :=
  DateTime.lt a b ∨ a = b

instance (a b : DateTime) : Decidable (DateTime.le a b) := by
  unfold DateTime.le; infer_instance

/-- Lexicographic (i.e. chronological) order on calendar dates. -/
def Date.le (a b : Date) : Prop :=
  a.year < b.year ∨ (a.year = b.year ∧
    (a.month < b.month ∨ (a.month = b.month ∧ a.day ≤ b.day)))

instance (a b : Date) : Decidable (Date.le a b) := by
  unfold Date.le; infer_instance

/-- The decimal digit character for `n % 10`. -/
def digitChar (n : Nat) : Char :=
  Char.ofNat (48 + n % 10)

/-- Zero-padded two-digit decimal rendering (pendulum `MM` / `DD`). -/
def pad2 (n : Nat) : List Char :=
  [digitChar (n / 10), digitChar n]

/-- Zero-padded four-digit decimal rendering (pendulum `YYYY`; pendulum
supports years up to 9999, where this agrees with it). -/
def pad4 (n : Nat) : List Char :=
  [digitChar (n / 1000), digitChar (n / 100), digitChar (n / 10), digitChar n]

/-- Rendering of a calendar date in the `YYYY-MM-DD` pattern. -/
def Date.render (d : Date) : String :=
  ⟨pad4 d.year ++ [Char.ofNat 45] ++ pad2 d.month ++ [Char.ofNat 45] ++ pad2 d.day⟩

/-- Pendulum's `format("YYYY-MM-DD")` on a timestamp: render its date part. -/
def formatYMD (t : DateTime) : String :=
  Date.render t.date

/-- The Airflow task context as `get_dates` consumes it: the two interval
boundaries, plus the wall-clock instant of the invocation (available in the
environment but never read by `get_dates`). -/
structure Context where
  data_interval_start : DateTime
  data_interval_end : DateTime
  wall_clock : DateTime
deriving DecidableEq, Repr

/-- Lines 37-42 of `raw_from_api_to_s3.py`:

    start_date = context["data_interval_start"].format("YYYY-MM-DD")
    end_date = context["data_interval_end"].format("YYYY-MM-DD")
    return start_date, end_date
-/
def get_dates (ctx : Context) : String × String :=
  (formatYMD ctx.data_interval_start, formatYMD ctx.data_interval_end)

/-- Outcome of running a Python function: either it returns a value or it
raises an exception (identified by name). -/
inductive PyOutcome (α : Type) where
  | returns (a : α)
  | raises (err : String)
deriving DecidableEq, Repr

/-- Run-semantics of `get_dates`: its body (lines 38-41) is two total
formatting calls followed by `return` — it contains no conditional and no
`raise` statement, so every invocation returns normally. -/
def get_dates_run (ctx : Context) : PyOutcome (String × String) :=
  PyOutcome.returns (get_dates ctx)

/-- Line 14: the data layer of the destination path. -/
def LAYER : String := "raw"

/-- Line 15: the data source of the destination path. -/
def SOURCE : String := "earthquake"

/-- The module globals set at lines 18-19 from the Airflow Variable store. -/
structure Globals where
  ACCESS_KEY : String
  SECRET_KEY : String
deriving DecidableEq, Repr

/-- Module top level, lines 18-19:

    ACCESS_KEY = Variable.get("access_key")
    SECRET_KEY = Variable.get("secret_key")

evaluated once, when the DAG file is imported.  Returns the globals together
with the ordered list of secret names read from the store during load. -/
def moduleLoad (store : String → String) : Globals × List String :=
  (⟨store "access_key", store "secret_key"⟩, ["access_key", "secret_key"])

/-- The source query URL interpolated at line 86:

    https://earthquake.usgs.gov/fdsnws/event/1/query?format=csv&starttime={start_date}&endtime={end_date}
-/
def sourceUrl (start_date end_date : String) : String :=
  "https://earthquake.usgs.gov/fdsnws/event/1/query?format=csv&starttime="
    ++ start_date ++ "&endtime=" ++ end_date

/-- The destination object path interpolated at line 89, relative to the
bucket: `{layer}/{source}/{start_date}/{start_date}_00-00-00.gz.parquet`. -/
def objectPath (layer source start_date : String) : String :=
  layer ++ "/" ++ source ++ "/" ++ start_date ++ "/" ++ start_date
    ++ "_00-00-00.gz.parquet"

/-- The full destination URI of line 89: `s3://prod/` followed by the object
path built from the module constants and the window start date. -/
def destinationUri (start_date : String) : String :=
  "s3://prod/" ++ objectPath LAYER SOURCE start_date

/-- The single extraction statement sent to DuckDB (lines 64-91), broken into
its interpolated components: the session settings (`SET`/`INSTALL`/`LOAD`)
and the `COPY (SELECT * FROM read_csv_auto(source)) TO destination`. -/
structure ExtractionStatement where
  timezone : String
  s3_url_style : String
  s3_endpoint : String
  s3_access_key_id : String
  s3_secret_access_key : String
  s3_use_ssl : Bool
  copySource : String
  copyDestination : String
deriving DecidableEq, Repr

/-- Assembly of the extraction statement from the globals and the window,
exactly as the f-string at lines 65-91 interpolates them. -/
def buildStatement (g : Globals) (start_date end_date : String) :
    ExtractionStatement :=
  ⟨"UTC", "path", "minio:9000", g.ACCESS_KEY, g.SECRET_KEY, false,
    sourceUrl start_date end_date, destinationUri start_date⟩

/-- Observable state of one run of `get_and_transfer_api_data_to_s3`. -/
structure RunState where
  startLogged : Bool
  connOpened : Bool
  statement : Option ExtractionStatement
  connClosed : Bool
  successLogged : Bool
  variableGets : List String
deriving DecidableEq, Repr

/-- One run of `get_and_transfer_api_data_to_s3` (lines 45-94), straight-line
Python with exception propagation.  `sqlOutcome` is the result of the
`con.sql(...)` call executed by the external engine: `none` means it returned,
`some e` that it raised the failure `e` (of any type `ε`).  The body of the
function contains no `try`/`except` and no `Variable.get` call; statements
after a raised exception do not execute, so on `some e` the `con.close()` of
line 93 and the success log of line 94 are skipped and `e` propagates. -/
def get_and_transfer_api_data_to_s3 {ε : Type} (g : Globals) (ctx : Context)
    (sqlOutcome : Option ε) : RunState × Option ε :=
  let dates := get_dates ctx
  let stmt := buildStatement g dates.1 dates.2
  let s1 : RunState := ⟨true, true, some stmt, false, false, []⟩
  match sqlOutcome with
  | some e => (s1, some e)
  | none => (⟨true, true, some stmt, true, true, []⟩, none)

/-- Whether a Python outcome was an exception. -/
def PyOutcome.raised {α : Type} : PyOutcome α → Bool
  | .returns _ => false
  | .raises _ => true

/-- Character-level shape of a `YYYY-MM-DD` string: exactly ten characters,
digits in the year/month/day slots and a dash (code 45) at positions 4 and 7. -/
def isYMDchars : List Char → Bool
  | [y1, y2, y3, y4, h1, m1, m2, h2, d1, d2] =>
      y1.isDigit && y2.isDigit && y3.isDigit && y4.isDigit &&
      (h1 == Char.ofNat 45) && m1.isDigit && m2.isDigit &&
      (h2 == Char.ofNat 45) && d1.isDigit && d2.isDigit
  | _ => false

/-- A string formatted as a `YYYY-MM-DD` calendar date. -/
def isYMDString (s : String) : Bool :=
  isYMDchars s.data

/-- Two strings ordered under date order: each renders a calendar date, and
the first date is less than or equal to the second. -/
def dateOrderedStrings (s1 s2 : String) : Prop :=
  ∃ d1 d2 : Date, s1 = d1.render ∧ s2 = d2.render ∧ Date.le d1 d2

lemma digitChar_isDigit (n : Nat) : (digitChar n).isDigit = true := by
  have h : n % 10 < 10 := Nat.mod_lt _ (by norm_num)
  unfold digitChar
  set r := n % 10 with hr
  interval_cases r <;> decide

lemma isYMDString_render (d : Date) : isYMDString d.render = true := by
  simp [isYMDString, Date.render, pad4, pad2, isYMDchars, digitChar_isDigit]

lemma date_le_of_datetime_lt (a b : DateTime) (h : DateTime.lt a b) :
    Date.le a.date b.date := by
  simp only [DateTime.lt, Date.le, DateTime.date] at *
  omega

/-- C1 (counterexample): the claim that `get_dates` fails with
`InvalidWindowError` whenever `interval_end <= interval_start` is false: at
the concrete interval 2025-10-21 → 2025-10-20 (end before start) the function
returns normally — its body has no validation and no raise statement. -/
theorem C1_counterexample :
    ¬ (∀ ctx : Context,
        DateTime.le ctx.data_interval_end ctx.data_interval_start →
        get_dates_run ctx = PyOutcome.raises "InvalidWindowError") := by
  intro h
  have hb := h ⟨⟨2025, 10, 21, 0, 0, 0⟩, ⟨2025, 10, 20, 0, 0, 0⟩,
    ⟨2025, 10, 21, 5, 0, 0⟩⟩ (by decide)
  simp [get_dates_run] at hb

/-- C1 (amended): `get_dates` performs no window validation: for every
interval with `interval_end <= interval_start` it still returns the two
formatted dates normally and raises nothing. -/
theorem C1_no_validation (ctx : Context)
    (h : DateTime.le ctx.data_interval_end ctx.data_interval_start) :
    get_dates_run ctx = PyOutcome.returns
      (formatYMD ctx.data_interval_start, formatYMD ctx.data_interval_end) ∧
    (get_dates_run ctx).raised = false := by
  exact ⟨rfl, rfl⟩

/-- C1 (witness for the amended theorem) at the interval
2025-10-21 → 2025-10-20. -/
theorem C1_no_validation_witness :
    DateTime.le
      (⟨⟨2025, 10, 21, 0, 0, 0⟩, ⟨2025, 10, 20, 0, 0, 0⟩,
        ⟨2025, 10, 21, 5, 0, 0⟩⟩ : Context).data_interval_end
      (⟨⟨2025, 10, 21, 0, 0, 0⟩, ⟨2025, 10, 20, 0, 0, 0⟩,
        ⟨2025, 10, 21, 5, 0, 0⟩⟩ : Context).data_interval_start ∧
    get_dates_run
      ⟨⟨2025, 10, 21, 0, 0, 0⟩, ⟨2025, 10, 20, 0, 0, 0⟩,
        ⟨2025, 10, 21, 5, 0, 0⟩⟩ = PyOutcome.returns
        (formatYMD ⟨2025, 10, 21, 0, 0, 0⟩, formatYMD ⟨2025, 10, 20, 0, 0, 0⟩) ∧
    (get_dates_run
      ⟨⟨2025, 10, 21, 0, 0, 0⟩, ⟨2025, 10, 20, 0, 0, 0⟩,
        ⟨2025, 10, 21, 5, 0, 0⟩⟩).raised = false :=
  ⟨by decide,
    (C1_no_validation _ (by decide)).1,
    (C1_no_validation _ (by decide)).2⟩

/-- C2: for every scheduler interval with start strictly before end,
`get_dates` returns a pair of `YYYY-MM-DD` strings, the first less than or
equal to the second under date order. -/
theorem C2_window_wellformed (ctx : Context)
    (h : DateTime.lt ctx.data_interval_start ctx.data_interval_end) :
    isYMDString (get_dates ctx).1 = true ∧
    isYMDString (get_dates ctx).2 = true ∧
    dateOrderedStrings (get_dates ctx).1 (get_dates ctx).2 := by
  refine ⟨isYMDString_render _, isYMDString_render _, ?_⟩
  exact ⟨ctx.data_interval_start.date, ctx.data_interval_end.date, rfl, rfl,
    date_le_of_datetime_lt _ _ h⟩

/-- C2 (witness) at the interval 2025-10-20 00:00 → 2025-10-21 00:00. -/
theorem C2_window_wellformed_witness :
    DateTime.lt
      (⟨⟨2025, 10, 20, 0, 0, 0⟩, ⟨2025, 10, 21, 0, 0, 0⟩,
        ⟨2025, 10, 21, 5, 0, 0⟩⟩ : Context).data_interval_start
      (⟨⟨2025, 10, 20, 0, 0, 0⟩, ⟨2025, 10, 21, 0, 0, 0⟩,
        ⟨2025, 10, 21, 5, 0, 0⟩⟩ : Context).data_interval_end ∧
    (isYMDString (get_dates ⟨⟨2025, 10, 20, 0, 0, 0⟩, ⟨2025, 10, 21, 0, 0, 0⟩,
        ⟨2025, 10, 21, 5, 0, 0⟩⟩).1 = true ∧
      isYMDString (get_dates ⟨⟨2025, 10, 20, 0, 0, 0⟩, ⟨2025, 10, 21, 0, 0, 0⟩,
        ⟨2025, 10, 21, 5, 0, 0⟩⟩).2 = true ∧
      dateOrderedStrings
        (get_dates ⟨⟨2025, 10, 20, 0, 0, 0⟩, ⟨2025, 10, 21, 0, 0, 0⟩,
          ⟨2025, 10, 21, 5, 0, 0⟩⟩).1
        (get_dates ⟨⟨2025, 10, 20, 0, 0, 0⟩, ⟨2025, 10, 21, 0, 0, 0⟩,
          ⟨2025, 10, 21, 5, 0, 0⟩⟩).2) :=
  ⟨by decide, C2_window_wellformed _ (by decide)⟩

/-- C3: the destination object path is a deterministic pure function of
`(layer, source, start_date)`: two constructions with identical inputs yield
the identical string, so a rerun of the same window targets the same object. -/
theorem C3_path_deterministic (l1 s1 d1 l2 s2 d2 : String)
    (hl : l1 = l2) (hs : s1 = s2) (hd : d1 = d2) :
    objectPath l1 s1 d1 = objectPath l2 s2 d2 ∧
    destinationUri d1 = destinationUri d2 := by
  subst hl; subst hs; subst hd; exact ⟨rfl, rfl⟩

/-- C3 (witness) at the concrete inputs of the scenario window. -/
theorem C3_path_deterministic_witness :
    ("raw" : String) = "raw" ∧ ("earthquake" : String) = "earthquake" ∧
    ("2025-10-20" : String) = "2025-10-20" ∧
    (objectPath "raw" "earthquake" "2025-10-20"
        = objectPath "raw" "earthquake" "2025-10-20" ∧
      destinationUri "2025-10-20" = destinationUri "2025-10-20") :=
  ⟨rfl, rfl, rfl,
    C3_path_deterministic "raw" "earthquake" "2025-10-20"
      "raw" "earthquake" "2025-10-20" rfl rfl rfl⟩

/-- C4: the scenario interval 2025-10-20 00:00 → 2025-10-21 00:00
(Europe/Moscow wall time) yields the window ("2025-10-20", "2025-10-21") and
the destination path raw/earthquake/2025-10-20/2025-10-20_00-00-00.gz.parquet. -/
theorem C4_scenario :
    get_dates ⟨⟨2025, 10, 20, 0, 0, 0⟩, ⟨2025, 10, 21, 0, 0, 0⟩,
        ⟨2025, 10, 21, 5, 0, 0⟩⟩ = ("2025-10-20", "2025-10-21") ∧
    objectPath LAYER SOURCE "2025-10-20"
      = "raw/earthquake/2025-10-20/2025-10-20_00-00-00.gz.parquet" := by
  exact ⟨rfl, rfl⟩

/-- C5: for every window, the source query URL carries
`starttime=start_date&endtime=end_date` and, earlier in the URL, the CSV
output format parameter `format=csv`. -/
theorem C5_url_params (s e : String) :
    ∃ rest, sourceUrl s e = rest ++ ("starttime=" ++ s ++ ("&endtime=" ++ e)) ∧
      ∃ u v, rest = u ++ "format=csv" ++ v := by
  refine ⟨"https://earthquake.usgs.gov/fdsnws/event/1/query?format=csv&", ?_,
    "https://earthquake.usgs.gov/fdsnws/event/1/query?", "&", rfl⟩
  simp only [sourceUrl, ← String.append_assoc]
  rfl

/-- C6 (counterexample): the claim that the DuckDB connection is released on
every exit path is false: when the extraction statement raises (here the
concrete failure "HTTPError"), execution leaves the function before the
`con.close()` of line 93, so the connection is not closed — the source has no
`try`/`finally` and no context manager around the connection. -/
theorem C6_counterexample :
    ¬ (∀ (g : Globals) (ctx : Context) (o : Option String),
        (get_and_transfer_api_data_to_s3 g ctx o).1.connClosed = true) := by
  intro h
  have hb := h ⟨"AK", "SK"⟩
    ⟨⟨2025, 10, 20, 0, 0, 0⟩, ⟨2025, 10, 21, 0, 0, 0⟩, ⟨2025, 10, 21, 5, 0, 0⟩⟩
    (some "HTTPError")
  simp [get_and_transfer_api_data_to_s3] at hb

/-- C6 (amended): the connection is closed exactly on the success path: if
the extraction statement returns, `con.close()` runs; if it raises, the
function exits without closing the connection. -/
theorem C6_close_only_on_success {ε : Type} (g : Globals) (ctx : Context)
    (o : Option ε) :
    (get_and_transfer_api_data_to_s3 g ctx o).1.connClosed = true ↔ o = none := by
  cases o <;> simp [get_and_transfer_api_data_to_s3]

/-- C7: a failure raised by the extraction statement propagates unmodified —
for every failure value `e`, the run ends with exactly that failure, the
success log of line 94 is never reached, and nothing is caught or
reclassified. -/
theorem C7_propagates_unmodified {ε : Type} (g : Globals) (ctx : Context)
    (e : ε) :
    (get_and_transfer_api_data_to_s3 g ctx (some e)).2 = some e ∧
    (get_and_transfer_api_data_to_s3 g ctx (some e)).1.successLogged = false := by
  simp [get_and_transfer_api_data_to_s3]

/-- C8: `get_dates` reads nothing but the two interval boundaries — two
contexts with equal `data_interval_start` and `data_interval_end` produce
equal windows, whatever the wall-clock instants of the two invocations. -/
theorem C8_no_wall_clock (c1 c2 : Context)
    (hs : c1.data_interval_start = c2.data_interval_start)
    (he : c1.data_interval_end = c2.data_interval_end) :
    get_dates c1 = get_dates c2 := by
  simp [get_dates, hs, he]

/-- C8 (witness): two invocations with the same interval but wall clocks a
year apart return the same window. -/
theorem C8_no_wall_clock_witness :
    (⟨⟨2025, 10, 20, 0, 0, 0⟩, ⟨2025, 10, 21, 0, 0, 0⟩,
        ⟨2025, 10, 21, 5, 0, 0⟩⟩ : Context).data_interval_start
      = (⟨⟨2025, 10, 20, 0, 0, 0⟩, ⟨2025, 10, 21, 0, 0, 0⟩,
        ⟨2026, 10, 21, 5, 0, 0⟩⟩ : Context).data_interval_start ∧
    (⟨⟨2025, 10, 20, 0, 0, 0⟩, ⟨2025, 10, 21, 0, 0, 0⟩,
        ⟨2025, 10, 21, 5, 0, 0⟩⟩ : Context).data_interval_end
      = (⟨⟨2025, 10, 20, 0, 0, 0⟩, ⟨2025, 10, 21, 0, 0, 0⟩,
        ⟨2026, 10, 21, 5, 0, 0⟩⟩ : Context).data_interval_end ∧
    get_dates ⟨⟨2025, 10, 20, 0, 0, 0⟩, ⟨2025, 10, 21, 0, 0, 0⟩,
        ⟨2025, 10, 21, 5, 0, 0⟩⟩
      = get_dates ⟨⟨2025, 10, 20, 0, 0, 0⟩, ⟨2025, 10, 21, 0, 0, 0⟩,
        ⟨2026, 10, 21, 5, 0, 0⟩⟩ :=
  ⟨rfl, rfl, C8_no_wall_clock _ _ rfl rfl⟩

/-- C9 (counterexample): the claim that the two secrets are read from the
store during each run of the Extraction Task is false: a concrete successful
run performs zero `Variable.get` calls — the body only interpolates the
module globals `ACCESS_KEY`/`SECRET_KEY`, which lines 18-19 populated at
module load. -/
theorem C9_counterexample :
    ¬ (∀ (g : Globals) (ctx : Context) (o : Option String),
        "access_key" ∈ (get_and_transfer_api_data_to_s3 g ctx o).1.variableGets ∧
        "secret_key" ∈ (get_and_transfer_api_data_to_s3 g ctx o).1.variableGets) := by
  intro h
  have hb := h ⟨"AK", "SK"⟩
    ⟨⟨2025, 10, 20, 0, 0, 0⟩, ⟨2025, 10, 21, 0, 0, 0⟩, ⟨2025, 10, 21, 5, 0, 0⟩⟩
    none
  simp [get_and_transfer_api_data_to_s3] at hb

/-- C9 (amended): the secret-store reads happen at module load, not at task
invocation: importing the DAG file reads exactly `access_key` then
`secret_key`, and every run of the task performs no store read at all. -/
theorem C9_reads_at_module_load {ε : Type} (store : String → String)
    (g : Globals) (ctx : Context) (o : Option ε) :
    (moduleLoad store).2 = ["access_key", "secret_key"] ∧
    (get_and_transfer_api_data_to_s3 g ctx o).1.variableGets = [] := by
  cases o <;> exact ⟨rfl, rfl⟩

/-- C10: the destination of the extraction statement depends only on
`start_date` — two windows with the same start and any two ends yield the
identical destination; and whenever the ends differ, the source query URLs
differ, so such runs overwrite the same object. -/
theorem C10_dest_ignores_end (g : Globals) (s e1 e2 : String) :
    (buildStatement g s e1).copyDestination
        = (buildStatement g s e2).copyDestination ∧
    (e1 ≠ e2 → (buildStatement g s e1).copySource
        ≠ (buildStatement g s e2).copySource) := by
  refine ⟨rfl, fun hne hcs => hne ?_⟩
  have hd := congrArg String.data hcs
  simp only [buildStatement, sourceUrl, String.data_append,
    List.append_assoc] at hd
  exact String.ext (List.append_cancel_left (List.append_cancel_left
    (List.append_cancel_left hd)))

/-- C10 (witness) at the windows (2025-10-20, 2025-10-21) and
(2025-10-20, 2025-10-25). -/
theorem C10_dest_ignores_end_witness :
    (buildStatement ⟨"AK", "SK"⟩ "2025-10-20" "2025-10-21").copyDestination
        = (buildStatement ⟨"AK", "SK"⟩ "2025-10-20" "2025-10-25").copyDestination ∧
    (("2025-10-21" : String) ≠ "2025-10-25" →
      (buildStatement ⟨"AK", "SK"⟩ "2025-10-20" "2025-10-21").copySource
        ≠ (buildStatement ⟨"AK", "SK"⟩ "2025-10-20" "2025-10-25").copySource) :=
  C10_dest_ignores_end ⟨"AK", "SK"⟩ "2025-10-20" "2025-10-21" "2025-10-25"

end Quake
